import Mathlib

/-!
Shallow embedding of the multi-variation streaming orchestration subsystem of
the repository: the server-side stream relay
(`src/frontend/src/pages/api/generate-line-content.ts`, the
`generate-line-content-stream` handler), the client orchestrator
(`src/frontend/src/components/ContentStreamingDisplay.tsx`), the content
generator retry loop (`src/unnamed/part_000`, `ContentGenerator`), and the
scraper title extraction (`src/unnamed/part_001` / `src/unnamed/part_002`,
`BlogScraper._extractTitle`).

Machine strings are modelled as Lean `String` (JS string concatenation is
`++`), JS truthiness of a string is the test against `""`, and the progress
numbers (JS doubles holding small exact values) are modelled as `ℚ`.
-/

/-- `ScrapedContent` (`@/types`): the `{title, content, images}` record produced
by `BlogScraper.scrape` or supplied pre-scraped. -/
structure ScrapedArticle where
  title : String
  content : String
  images : List String
  deriving DecidableEq

/-- `GeneratedContent` (`@/types`): one generated variation, `{content, markdown}`. -/
structure GeneratedContent where
  content : String
  markdown : String
  deriving DecidableEq

/-- `BlogScraper._extractTitle` (`src/unnamed/part_001` lines 43-63 and
`src/unnamed/part_002` lines 109-129; the two versions are identical): takes the
text of the first `h1`, of the first `.article-title/.entry-title/.post-title`
element, and of the `title` tag, trims each, and returns the first truthy one,
falling back to the literal `タイトル不明`. -/
def extractTitle (h1Text classTitleText titleTagText : String) : String :=
  let h1 := h1Text.trim
  if h1 ≠ "" then h1
  else
    let articleTitle := classTitleText.trim
    if articleTitle ≠ "" then articleTitle
    else
      let titleTag := titleTagText.trim
      if titleTag ≠ "" then titleTag
      else "タイトル不明"

/-- One image reference appended by `_formatAsMarkdown` / `formatAsMarkdown`
for the image at 0-based position `k`: the JS template
`\n\n![記事画像 ${i+1}](${images[i]})`. -/
def imageRef (k : ℕ) (u : String) : String :=
  "\n\n![記事画像 " ++ toString (k + 1) ++ "](" ++ u ++ ")"

/-- The `for` loop of `formatAsMarkdown` (`ContentStreamingDisplay.tsx` lines
290-292 and `content-generator.ts` lines 184-186): `markdown += ...` for each
selected image, carrying the accumulated markdown. -/
def addImages (md : String) (k : ℕ) : List String → String
  | [] => md
  | u :: rest => addImages (md ++ imageRef k u) (k + 1) rest

/-- The concatenation of the image references from position `k` on, written
right-associated (used to state what `addImages` computes). -/
def imageRefs (k : ℕ) : List String → String
  | [] => ""
  | u :: rest => imageRef k u ++ imageRefs (k + 1) rest

/-- `formatAsMarkdown` (`ContentStreamingDisplay.tsx` lines 286-300), identical
to `ContentGenerator._formatAsMarkdown` (`content-generator.ts` lines 176-194):
starts from `content`, appends one image reference per selected image in order,
then appends the source link if `blogUrl` is truthy (in JS an absent or empty
`blogUrl` is falsy). -/
def formatAsMarkdown (content : String) (images : List String) (blogUrl : Option String) : String :=
  let md := addImages content 0 images
  match blogUrl with
  | some u => if u = "" then md else md ++ "\n\n[詳細を見る](" ++ u ++ ")"
  | none => md

/-- JS `content.trim().length === 0`: the string has only whitespace characters. -/
def isBlank (s : String) : Bool :=
  s.data.all (·.isWhitespace)

/-- The three-variation generation loop of `ContentGenerator.generateLineContent`
(`src/unnamed/part_000` lines 104-148).  `respond call` is the output text
extracted from the `call`-th `openai.responses.create` invocation.  The JS loop
is `for (let i = 0; i < 3; i++)` with `if (content.trim().length === 0) { i--;
continue; }` — on an empty result the index is decremented and the same
variation retried with no attempt cap.  `fuel` counts loop iterations executed:
the JS loop has no such bound, so the JS loop terminates within `n` iterations
exactly when this function returns `some` for `fuel = n`. -/
def genVariationsLoop (respond : ℕ → String) (imgs : List String) (url : Option String) :
    ℕ → ℕ → ℕ → List GeneratedContent → Option (List GeneratedContent)
  | 0, _, _, _ => none
  | fuel + 1, call, i, acc =>
    if i ≥ 3 then some acc
    else
      let content := respond call
      if isBlank content then genVariationsLoop respond imgs url fuel (call + 1) i acc
      else
        genVariationsLoop respond imgs url fuel (call + 1) (i + 1)
          (acc ++ [⟨content, formatAsMarkdown content imgs url⟩])

/-- The request object carried in the `requestData` query parameter of the
stream endpoint (built by `ContentStreamingDisplay.tsx` lines 103-109 or the
redirect at `generate-line-content.ts` lines 68-77).  The handler destructures
`selected_images` and `use_web_search` and leaves everything else (including
any `scraped_content`) inside `lineRequest`. -/
structure ParsedRequest where
  blog_url : String
  selected_images : List String
  use_web_search : Bool
  scraped_content : Option ScrapedArticle
  deriving DecidableEq

/-- The state of the `requestData` query parameter as seen by the stream
handler: absent (or not a string), present but not valid JSON (the
`JSON.parse` call throws into the outer catch), or parsed. -/
inductive ReqData
  | missing
  | unparseable (msg : String)
  | parsed (r : ParsedRequest)
  deriving DecidableEq

/-- Result of the `scraper.scrape()` call awaited by the stream handler:
either a `ScrapedContent` value or a thrown error with a message. -/
inductive ScrapeOutcome
  | ok (sc : ScrapedArticle)
  | fail (msg : String)
  deriving DecidableEq

/-- One invocation of the stream relay handler, with the environment and the
behaviour of its two collaborators fixed: `genEvents` are the chunks the
generation stream yields before it either completes (`genError = none`) or
throws (`genError = some msg`). -/
structure RelayInput where
  reqData : ReqData
  apiKey : Option String
  varIndex : ℕ
  scrape : ScrapeOutcome
  genEvents : List String
  genError : Option String
  deriving DecidableEq

/-- One `data: ...\n\n` message written to the SSE byte channel by the stream
handler.  `done` is the literal sentinel line `data: [DONE]`.  A relayed chunk
is serialized with `JSON.stringify` and therefore can never equal the
unquoted text `[DONE]`, so `chunk` and `done` are distinct constructors. -/
inductive SSELine
  | processStart
  | scrapedContent (title : String) (contentLength imageCount : ℕ)
  | scrapingWarning (w : String)
  | variationInfo (index total : ℕ)
  | generationStarting
  | chunk (payload : String)
  | errorEvent (msg : String)
  | done
  deriving DecidableEq

/-- What one handler invocation did: the full sequence of lines written before
`res.end()`, whether `scraper.scrape()` was invoked, and the `scraped_content`
value handed to `generateLineContentStream` (none on the early-exit paths that
never reach the generation step). -/
structure RelayResult where
  lines : List SSELine
  scrapeCalled : Bool
  usedContent : Option ScrapedArticle
  deriving DecidableEq

/-- The dummy `scraped_content` the handler builds when `scraper.scrape()`
throws (`generate-line-content.ts` lines 272-276): title is the last
`/`-segment of the URL (JS `blog_url.split('/').pop() || '記事タイトル'`), a fixed
content string, and the selected images. -/
def dummyScraped (r : ParsedRequest) : ScrapedArticle :=
  { title :=
      (let seg := (r.blog_url.splitOn "/").getLastD ""
       if seg = "" then "記事タイトル" else seg),
    content := "記事の内容を解析できませんでした。OpenAIのWeb検索機能を使用して、関連情報を検索します。",
    images := if r.selected_images.length > 0 then r.selected_images else [] }

/-- The short-content fixup applied after a successful scrape
(`generate-line-content.ts` lines 251-256): when the content is falsy or
shorter than 50 characters, replace a falsy content by a default sentence and
append a suffix naming the request URL. -/
def resolveContent (r : ParsedRequest) (sc : ScrapedArticle) : ScrapedArticle :=
  if sc.content = "" ∨ sc.content.length < 50 then
    let base := if sc.content = "" then "記事の内容が十分に取得できませんでした。" else sc.content
    { sc with content := base ++ "\n\n" ++ r.blog_url ++ " の記事を基に、LINE配信記事を作成します。" }
  else sc

/-- The stream relay handler (`generate-line-content.ts` lines 186-337,
`generate-line-content-stream`).  Paths, in the order of the source:
missing `requestData` writes one error event and ends; a `JSON.parse` failure
lands in the outer catch, which writes one error event and ends; a missing
`OPENAI_API_KEY` writes one error event and ends.  Otherwise the handler
writes `process_start`, scrapes (emitting either `scraped_content` on success
— after the short-content fixup — or `scraping_warning` with dummy content on
failure), writes `variation_info` and `generation_starting`, relays every
chunk of the generation stream, appends an `error` event if the stream threw,
and finally writes the `[DONE]` sentinel and ends.  The handler never reads a
`scraped_content` field out of the parsed request: it always scrapes. -/
def relay (inp : RelayInput) : RelayResult :=
  match inp.reqData with
  | .missing =>
      { lines := [.errorEvent "リクエストデータが見つかりません"],
        scrapeCalled := false, usedContent := none }
  | .unparseable msg =>
      { lines := [.errorEvent ("ストリーミングエラー: " ++ msg)],
        scrapeCalled := false, usedContent := none }
  | .parsed r =>
    match inp.apiKey with
    | none =>
        { lines := [.errorEvent "OPENAI_API_KEYが設定されていません"],
          scrapeCalled := false, usedContent := none }
    | some _ =>
      let scraped : List SSELine × ScrapedArticle :=
        match inp.scrape with
        | .ok sc =>
          let sc' := resolveContent r sc
          ([.scrapedContent sc'.title sc'.content.length sc'.images.length], sc')
        | .fail msg =>
          ([.scrapingWarning
              ("記事の詳細なスクレイピングに失敗しましたが、基本情報で処理を続行します: " ++ msg)],
           dummyScraped r)
      let genLines : List SSELine :=
        inp.genEvents.map .chunk ++
          (match inp.genError with
           | some m => [.errorEvent ("コンテンツ生成中にエラーが発生しました: " ++ m)]
           | none => [])
      { lines :=
          [.processStart] ++ scraped.1 ++
            [.variationInfo inp.varIndex 3, .generationStarting] ++ genLines ++ [.done],
        scrapeCalled := true,
        usedContent := some scraped.2 }

/-- The handler invocations that end before reaching the scraping step:
missing or unparseable request data, or an absent API key. -/
def isEarlyExit (inp : RelayInput) : Bool :=
  match inp.reqData with
  | .parsed _ => inp.apiKey.isNone
  | _ => true

/-- Number of `data: [DONE]` sentinel lines in a channel transcript. -/
def countDone : List SSELine → ℕ
  | [] => 0
  | l :: rest => (if l = SSELine.done then 1 else 0) + countDone rest

/-- Whether a transcript contains a `scraping_warning` event. -/
def hasWarningLine : List SSELine → Bool
  | [] => false
  | .scrapingWarning _ :: _ => true
  | _ :: rest => hasWarningLine rest

/-- Whether a transcript contains a `scraped_content` event. -/
def hasScrapedLine : List SSELine → Bool
  | [] => false
  | .scrapedContent _ _ _ :: _ => true
  | _ :: rest => hasScrapedLine rest

/-- The stream events the client `onmessage` handler distinguishes
(`ContentStreamingDisplay.tsx` lines 145-209), after `JSON.parse` of
`event.data`; `other` covers every `type` the handler has no branch for
(such as `web_search_complete`), which it silently ignores. -/
inductive CEvent
  | processStart
  | scrapedContent (title : String)
  | scrapingWarning (w : String)
  | variationInfo (index : ℕ)
  | generationStarting
  | responseCreated
  | responseInProgress
  | webSearchCall
  | outputTextDelta (d : String)
  | outputTextDone
  | variationComplete
  | error (msg : String)
  | other (ty : String)
  deriving DecidableEq

/-- Per-session client state while a channel is open: the `progress` slot of
`variationStates[index]` and the local `accumulatedText` of `generateVariation`. -/
structure SessionSt where
  progress : ℚ
  acc : String
  deriving DecidableEq

/-- The effect of one recognized event on the open session, following the
`onmessage` branches (`ContentStreamingDisplay.tsx` lines 148-209).  Every
branch calls `updateVariationProgress`, which assigns the given value
absolutely (`{...state, progress}` at lines 260-266 — there is no `max`
combinator).  A text delta appends to `accumulatedText` and assigns
`min(60 + length/15, 95)`. -/
def sessionStep (s : SessionSt) : CEvent → SessionSt
  | .processStart => { s with progress := 10 }
  | .scrapedContent _ => { s with progress := 20 }
  | .scrapingWarning _ => { s with progress := 25 }
  | .variationInfo _ => { s with progress := 30 }
  | .generationStarting => { s with progress := 35 }
  | .responseCreated => { s with progress := 40 }
  | .responseInProgress => { s with progress := 50 }
  | .webSearchCall => { s with progress := 60 }
  | .outputTextDelta d =>
    let acc := s.acc ++ d
    { progress := min (60 + (acc.length : ℚ) / 15) 95, acc := acc }
  | .outputTextDone => { s with progress := 98 }
  | .variationComplete => { s with progress := 100 }
  | .error _ => { s with progress := 0 }
  | .other _ => s

/-- The successive values stored into `variationStates[index].progress` while
the remaining events are applied: an `error` event stores `0` via
`handleVariationError` (line 228) and closes the channel; an unrecognized
event stores nothing; the sentinel `[DONE]` after the last event stores `100`
(line 133); every other event stores the value assigned by `sessionStep`. -/
def traceAux (s : SessionSt) : List CEvent → List ℚ
  | [] => [100]
  | .error _ :: _ => [0]
  | .other _ :: rest => traceAux s rest
  | e :: rest => (sessionStep s e).progress :: traceAux (sessionStep s e) rest

/-- The full sequence of progress values recorded for one session over a run:
`generateVariation` stores `5` when the session enters `loading` (line 98),
then the values of `traceAux`. -/
def progressTrace (evs : List CEvent) : List ℚ :=
  5 :: traceAux ⟨5, ""⟩ evs

/-- The fallback content synthesized by `handleVariationError`
(`ContentStreamingDisplay.tsx` line 241) for 0-based session index `i`:
the JS template with `index + 1` and `scrapedContent?.title || 'この記事'`. -/
def fallbackContent (i : ℕ) (title : String) : String :=
  "バリエーション " ++ toString (i + 1) ++ " の生成に失敗しました。\n\n" ++
    (if title = "" then "この記事" else title) ++ "についての情報は元の記事をご覧ください。"

/-- The final value of `streamedContents[i]` after session `i`'s channel
closes: text deltas accumulate (each delta writes the accumulated text into
the slot, lines 182-187); an `error` event overwrites the slot with the
fallback content and closes the channel, so later events are never delivered
(lines 236-246); every other event leaves the slot alone; if no error event
arrives the slot holds the accumulated text when `[DONE]` arrives. -/
def processSessionContent (i : ℕ) (title acc : String) : List CEvent → String
  | [] => acc
  | .error _ :: _ => fallbackContent i title
  | .outputTextDelta d :: rest => processSessionContent i title (acc ++ d) rest
  | _ :: rest => processSessionContent i title acc rest

/-- Whether a client event is the `error` event. -/
def isErrorEvent : CEvent → Bool
  | .error _ => true
  | _ => false

/-- Whether the session's channel delivers an `error` event. -/
def hasError (evs : List CEvent) : Bool :=
  evs.any isErrorEvent

/-- The terminal status `variationStates[i].status` reaches: `error` when
`handleVariationError` ran (an error event arrived), `complete` when the
sentinel arrived first (lines 131-135 / 226-230). -/
inductive VStatus
  | complete
  | error
  deriving DecidableEq

/-- Terminal status of a session from its event list. -/
def sessionStatusOf (evs : List CEvent) : VStatus :=
  if hasError evs then .error else .complete

/-- When the user clicks 生成を中止 (`handleCancelStream`, lines 302-308)
relative to the sequential run: never, while session `i`'s channel is open
after `k` delivered events, or during the 500 ms settle `setTimeout` between
session `i`'s terminal event and the start of the next session. -/
inductive CancelPoint
  | noCancel
  | duringSession (i : Fin 3) (k : ℕ)
  | duringSettle (i : Fin 3)
  deriving DecidableEq

/-- What the caller observes from one run, plus the component state left
behind: the argument of the single `onStreamComplete` call if it happened,
how many cancellation signals `onStreamError` delivered, and the last value
stored into the `streamedContents` state (what the streaming view displays). -/
structure RunResult where
  delivered : Option (List GeneratedContent)
  cancelSignals : ℕ
  finalState : Fin 3 → String

/-- `finishAllVariations` (`ContentStreamingDisplay.tsx` lines 269-283): maps
the three content slots of a `streamedContents` array to `{content, markdown}`
records and hands them to `onStreamComplete`. -/
def finishAll (contents : Fin 3 → String) (imgs : List String) (url : Option String) :
    List GeneratedContent :=
  ([0, 1, 2] : List (Fin 3)).map fun j =>
    ⟨contents j, formatAsMarkdown (contents j) imgs url⟩

/-- Whether processing a session performs any `setStreamedContents` write:
a text delta writes the accumulated text (lines 182-187) and an error event
writes the fallback (lines 240-246); events after the first error are never
delivered, and no other event touches the content state. -/
def sessionWrote : List CEvent → Bool
  | [] => false
  | .error _ :: _ => true
  | .outputTextDelta _ :: _ => true
  | _ :: rest => sessionWrote rest

/-- The sequential session driver `generateVariation` (lines 88-219) together
with `handleCancelStream` (lines 302-308).  `rem` is the list of session
indices still to run; with `rem = []` the guard `index >= 3` fires and
`finishAllVariations` delivers the result.

The whole callback chain — every `onmessage` handler, `handleVariationError`,
`finishAllVariations`, and the recursive `generateVariation` calls through
`setTimeout` — is created in the single render that launched the run, so each
`const newContents = [...streamedContents]` (lines 185, 244) and the
aggregation `streamedContents.map(...)` (line 275) read the launch-render
`snapshot` of the state, not the current state (only `variationStates` uses
functional updates).  Hence every session write replaces the state with
`snapshot` plus that session's own slot, wiping earlier sessions' slots, and
the delivered array is `finishAll snapshot` — the per-session results never
reach it.  `state` tracks the live `streamedContents` value.

A cancel while a channel is open closes every `EventSource`, emits one
`onStreamError`, and since no further message is delivered the chain stops:
no later session starts and `onStreamComplete` never runs (the cancelled
session's writes so far — its first `k` events — stand).  A cancel during the
settle delay also emits one `onStreamError`, but `handleCancelStream` does
not clear the pending `setTimeout` (line 254 / 138), so the timer still fires
and the remaining sessions run to completion. -/
def runFrom (scripts : Fin 3 → List CEvent) (title : String) (imgs : List String)
    (url : Option String) (snapshot : Fin 3 → String) :
    CancelPoint → (Fin 3 → String) → List (Fin 3) → RunResult
  | _, state, [] =>
      { delivered := some (finishAll snapshot imgs url), cancelSignals := 0,
        finalState := state }
  | cp, state, i :: rest =>
    match cp with
    | .duringSession j k =>
      if j = i then
        { delivered := none, cancelSignals := 1,
          finalState :=
            if sessionWrote ((scripts i).take k) then
              Function.update snapshot i
                (processSessionContent (i : ℕ) title "" ((scripts i).take k))
            else state }
      else
        runFrom scripts title imgs url snapshot cp
          (if sessionWrote (scripts i) then
            Function.update snapshot i (processSessionContent (i : ℕ) title "" (scripts i))
          else state) rest
    | .duringSettle j =>
      if j = i then
        let res :=
          runFrom scripts title imgs url snapshot .noCancel
            (if sessionWrote (scripts i) then
              Function.update snapshot i (processSessionContent (i : ℕ) title "" (scripts i))
            else state) rest
        { res with cancelSignals := res.cancelSignals + 1 }
      else
        runFrom scripts title imgs url snapshot cp
          (if sessionWrote (scripts i) then
            Function.update snapshot i (processSessionContent (i : ℕ) title "" (scripts i))
          else state) rest
    | .noCancel =>
        runFrom scripts title imgs url snapshot .noCancel
          (if sessionWrote (scripts i) then
            Function.update snapshot i (processSessionContent (i : ℕ) title "" (scripts i))
          else state) rest

/-- One full client run on a fresh mount: the initial `streamedContents`
state is `['', '', '']` (line 35; the effect stores the same value again at
line 66), so the launch-render snapshot captured by the callback chain and
the live state both start as the all-empty array, and `generateVariation(0)`
starts the chain (line 78). -/
def runOrch (scripts : Fin 3 → List CEvent) (title : String) (imgs : List String)
    (url : Option String) (cp : CancelPoint) : RunResult :=
  runFrom scripts title imgs url (fun _ => "") cp (fun _ => "") [0, 1, 2]

/-- Validity of a `duringSession` cancel point: after `k` delivered events the
channel of a session with script `evs` is still open — `k` does not exceed the
script and no error event (which closes the channel) occurred among the first
`k` events. -/
def channelOpenAt (evs : List CEvent) (k : ℕ) : Bool :=
  decide (k ≤ evs.length) && !hasError (evs.take k)

/-- A parsed request with no pre-scraped content, used as concrete input. -/
def reqEx : ParsedRequest :=
  { blog_url := "http://example.com/a", selected_images := [], use_web_search := true,
    scraped_content := none }

/-- Concrete invocation on which both scraping and generation fail. -/
def relayOkInput : RelayInput :=
  { reqData := .parsed reqEx, apiKey := some "sk", varIndex := 0,
    scrape := .fail "ECONNREFUSED", genEvents := ["{}"], genError := some "network" }

/-- Concrete invocation with the `requestData` query parameter absent. -/
def relayNoDataInput : RelayInput :=
  { reqData := .missing, apiKey := some "sk", varIndex := 0,
    scrape := .fail "unused", genEvents := [], genError := none }

/-- Concrete invocation on which `scraper.scrape()` throws. -/
def failScrapeInput : RelayInput :=
  { reqData := .parsed reqEx, apiKey := some "sk", varIndex := 0,
    scrape := .fail "timeout", genEvents := ["{}"], genError := none }

/-- Concrete invocation on which scraping succeeds with content shorter than
the 50-character threshold. -/
def shortContentInput : RelayInput :=
  { reqData := .parsed reqEx, apiKey := some "sk", varIndex := 0,
    scrape := .ok { title := "T", content := "短い記事", images := [] },
    genEvents := [], genError := none }

/-- A non-empty pre-scraped article, as produced by the scrape step of the
POST handler and packed into the redirect query string
(`generate-line-content.ts` lines 67-77). -/
def preScrapedEx : ScrapedArticle :=
  { title := "既存タイトル",
    content := "事前にスクレイピング済みの十分に長い本文テキストです。この本文は五十文字のしきい値を超える長さを持ちます。",
    images := [] }

/-- A parsed request that carries the non-empty pre-scraped article
`preScrapedEx`. -/
def reqWithPreScraped : ParsedRequest :=
  { blog_url := "http://example.com/a", selected_images := [], use_web_search := true,
    scraped_content := some preScrapedEx }

/-- The article the live scrape returns on the `suppliedContentInput`
invocation (long enough to avoid the short-content fixup). -/
def rescrapedEx : ScrapedArticle :=
  { title := "再取得タイトル",
    content := "aaaaaaaaaaaaaaaaaaaaaaaaaaaaaaaaaaaaaaaaaaaaaaaaaaaaaaaaaaaa",
    images := [] }

/-- Concrete invocation whose request carries the non-empty pre-scraped
article `preScrapedEx`; the live scrape would return a different article. -/
def suppliedContentInput : RelayInput :=
  { reqData := .parsed reqWithPreScraped, apiKey := some "sk", varIndex := 0,
    scrape := .ok rescrapedEx, genEvents := [], genError := none }

/-- Session scripts on which every channel delivers a single error event. -/
def errScripts : Fin 3 → List CEvent := fun _ => [CEvent.error "connect failed"]

/-- Session scripts on which every channel delivers two ordinary events. -/
def openScripts : Fin 3 → List CEvent :=
  fun _ => [CEvent.processStart, CEvent.outputTextDelta "こん"]

theorem countDone_append (l1 l2 : List SSELine) :
    countDone (l1 ++ l2) = countDone l1 + countDone l2 := by
  induction l1 with
  | nil => simp [countDone]
  | cons x l ih => simp [countDone, ih]; omega

theorem countDone_chunks (l : List String) : countDone (l.map SSELine.chunk) = 0 := by
  induction l with
  | nil => rfl
  | cons x l ih => simp [countDone, ih]

theorem hasWarningLine_append (l1 l2 : List SSELine) :
    hasWarningLine (l1 ++ l2) = (hasWarningLine l1 || hasWarningLine l2) := by
  induction l1 with
  | nil => simp [hasWarningLine]
  | cons x l ih => cases x <;> simp [hasWarningLine, ih]

theorem hasWarningLine_chunks (l : List String) :
    hasWarningLine (l.map SSELine.chunk) = false := by
  induction l with
  | nil => rfl
  | cons x l ih => simp [hasWarningLine, ih]

theorem hasScrapedLine_append (l1 l2 : List SSELine) :
    hasScrapedLine (l1 ++ l2) = (hasScrapedLine l1 || hasScrapedLine l2) := by
  induction l1 with
  | nil => simp [hasScrapedLine]
  | cons x l ih => cases x <;> simp [hasScrapedLine, ih]

theorem hasScrapedLine_chunks (l : List String) :
    hasScrapedLine (l.map SSELine.chunk) = false := by
  induction l with
  | nil => rfl
  | cons x l ih => simp [hasScrapedLine, ih]

theorem addImages_eq : ∀ (l : List String) (md : String) (k : ℕ),
    addImages md k l = md ++ imageRefs k l := by
  intro l
  induction l with
  | nil => intro md k; simp [addImages, imageRefs, String.append_empty]
  | cons u rest ih =>
    intro md k
    simp [addImages, imageRefs, ih, String.append_assoc]

/-- C10: for every fetched document, `_extractTitle` returns a non-empty
string — the first non-empty of the trimmed h1 text, the trimmed
article/entry/post-title class text, the trimmed title-tag text, and
otherwise the literal fallback `タイトル不明`.  Hence every `ScrapedContent`
built from a successful fetch has a non-empty title.  Confirmed. -/
theorem extractTitle_nonempty (h1Text classTitleText titleTagText : String) :
    extractTitle h1Text classTitleText titleTagText ≠ "" ∧
    (extractTitle h1Text classTitleText titleTagText = h1Text.trim ∨
     extractTitle h1Text classTitleText titleTagText = classTitleText.trim ∨
     extractTitle h1Text classTitleText titleTagText = titleTagText.trim ∨
     extractTitle h1Text classTitleText titleTagText = "タイトル不明") := by
  unfold extractTitle
  dsimp only
  split_ifs with hA hB hC
  · exact ⟨hA, Or.inl rfl⟩
  · exact ⟨hB, Or.inr (Or.inl rfl)⟩
  · exact ⟨hC, Or.inr (Or.inr (Or.inl rfl))⟩
  · exact ⟨by decide, Or.inr (Or.inr (Or.inr rfl))⟩

/-- C9: the derived markdown is the content, followed by one image reference
per selected image in selection order, followed by the source link when a
non-empty source URL is provided; with no images and no URL the markdown is
the content unchanged.  Confirmed (an empty-string URL counts as absent, as
JS truthiness makes it). -/
theorem formatAsMarkdown_appends_images_then_link (c : String) (imgs : List String)
    (u : String) (hu : u ≠ "") :
    formatAsMarkdown c imgs (some u) = c ++ imageRefs 0 imgs ++ "\n\n[詳細を見る](" ++ u ++ ")" ∧
    formatAsMarkdown c imgs none = c ++ imageRefs 0 imgs ∧
    formatAsMarkdown c [] none = c := by
  refine ⟨?_, ?_, ?_⟩
  · show (if u = "" then addImages c 0 imgs
      else addImages c 0 imgs ++ "\n\n[詳細を見る](" ++ u ++ ")") = _
    rw [if_neg hu, addImages_eq]
  · show addImages c 0 imgs = _
    rw [addImages_eq]
  · rfl

/-- C9 witness: the theorem instantiated at a concrete content string, one
selected image and a concrete source URL. -/
theorem formatAsMarkdown_appends_images_then_link_witness :
    formatAsMarkdown "本文" ["http://img/1.png"] (some "http://example.com/a") =
      "本文" ++ imageRefs 0 ["http://img/1.png"] ++ "\n\n[詳細を見る](" ++ "http://example.com/a" ++ ")" ∧
    formatAsMarkdown "本文" ["http://img/1.png"] none = "本文" ++ imageRefs 0 ["http://img/1.png"] ∧
    formatAsMarkdown "本文" [] none = "本文" :=
  formatAsMarkdown_appends_images_then_link "本文" ["http://img/1.png"] "http://example.com/a"
    (by decide)

/-- C5: the claim says the empty-result retry inside the three-variation loop
is bounded by an explicit maximum attempt count, so `generateLineContent`
terminates for every backend behaviour.  The code has no cap: on an empty
result it decrements the loop counter and retries the same index
(`src/unnamed/part_000` lines 132-137).  Code bug (the spec design notes call
this loop out as a latent infinite loop): against a backend whose extracted
output text is always empty, the loop completes within no finite number of
iterations — for every iteration bound `fuel` the loop is still running. -/
theorem empty_retry_never_terminates (imgs : List String) (url : Option String) :
    ∀ (fuel call : ℕ) (acc : List GeneratedContent),
      genVariationsLoop (fun _ => "") imgs url fuel call 0 acc = none := by
  intro fuel
  induction fuel with
  | zero => intro call acc; rfl
  | succ n ih =>
    intro call acc
    have hb : isBlank "" = true := rfl
    simpa [genVariationsLoop, hb] using ih (call + 1) acc

/-- C1 (corrected): the claim says every invocation of the stream relay emits
the `data: [DONE]` sentinel exactly once, including when the request data is
missing or unparseable and when the API key is absent.  On those three
early-exit paths the handler writes a single error event and calls
`res.end()` without the sentinel (`generate-line-content.ts` lines 206-212,
231-237, 329-336), so the claim as stated is false (see the counterexample).
Amended: on every invocation whose request data parses and whose API key is
present — in particular whenever scraping throws or the generation stream
throws — the channel carries the sentinel exactly once, as its final line
before the channel closes. -/
theorem relay_sentinel_exactly_once_on_processed_requests (inp : RelayInput)
    (h : isEarlyExit inp = false) :
    countDone (relay inp).lines = 1 ∧ (relay inp).lines.getLast? = some SSELine.done := by
  obtain ⟨rd, key, vi, scr, ge, gerr⟩ := inp
  cases rd with
  | missing => simp [isEarlyExit] at h
  | unparseable m => simp [isEarlyExit] at h
  | parsed r =>
    cases key with
    | none => simp [isEarlyExit] at h
    | some k =>
      constructor
      · cases scr <;> cases gerr <;>
          simp [relay, countDone_append, countDone_chunks, countDone]
      · cases scr <;> cases gerr <;>
          (simp only [relay]; exact List.getLast?_concat _)

/-- C1 witness: the amended theorem instantiated at an invocation where both
the scrape and the generation stream throw. -/
theorem relay_sentinel_witness :
    countDone (relay relayOkInput).lines = 1 ∧
    (relay relayOkInput).lines.getLast? = some SSELine.done :=
  relay_sentinel_exactly_once_on_processed_requests relayOkInput (by decide)

/-- C1 counterexample: an invocation with the `requestData` query parameter
missing closes the channel after one error event and zero sentinel lines, so
the sentinel is not carried exactly once on every execution path. -/
theorem relay_sentinel_missing_on_early_exit :
    countDone (relay relayNoDataInput).lines ≠ 1 := by decide

/-- C7 (corrected): the claim says the relay substitutes placeholder content
and emits `scraping_warning` instead of `scraped_content` both when the
scrape call fails and when the scraped content is shorter than 50 characters.
The code treats the two cases differently: only a thrown scrape produces the
warning; a successful scrape with short content is augmented in place and
still announced with `scraped_content` (see the counterexample).  Amended:
whenever the scrape call fails, the relay substitutes the dummy article
derived from the request, emits `scraping_warning` and no `scraped_content`,
and still runs generation and terminates the stream with the sentinel. -/
theorem scrape_failure_warning_and_continue (inp : RelayInput) (r : ParsedRequest)
    (msg : String) (hr : inp.reqData = ReqData.parsed r) (hk : inp.apiKey.isSome = true)
    (hs : inp.scrape = ScrapeOutcome.fail msg) :
    hasWarningLine (relay inp).lines = true ∧
    hasScrapedLine (relay inp).lines = false ∧
    (relay inp).usedContent = some (dummyScraped r) ∧
    SSELine.generationStarting ∈ (relay inp).lines ∧
    (relay inp).lines.getLast? = some SSELine.done := by
  obtain ⟨rd, key, vi, scr, ge, gerr⟩ := inp
  simp only at hr hk hs
  subst hr
  subst hs
  cases key with
  | none => simp at hk
  | some k =>
    refine ⟨?_, ?_, rfl, ?_, ?_⟩
    · cases gerr <;>
        simp [relay, hasWarningLine_append, hasWarningLine_chunks, hasWarningLine]
    · cases gerr <;>
        simp [relay, hasScrapedLine_append, hasScrapedLine_chunks, hasScrapedLine]
    · cases gerr <;> simp [relay]
    · cases gerr <;> (simp only [relay]; exact List.getLast?_concat _)

/-- C7 witness: the amended theorem instantiated at an invocation where the
scrape call throws with message `timeout`. -/
theorem scrape_failure_warning_witness :
    hasWarningLine (relay failScrapeInput).lines = true ∧
    hasScrapedLine (relay failScrapeInput).lines = false ∧
    (relay failScrapeInput).usedContent = some (dummyScraped reqEx) ∧
    SSELine.generationStarting ∈ (relay failScrapeInput).lines ∧
    (relay failScrapeInput).lines.getLast? = some SSELine.done :=
  scrape_failure_warning_and_continue failScrapeInput reqEx "timeout" rfl rfl rfl

/-- C7 counterexample: when the scrape succeeds with content shorter than
50 characters, the relay does not behave as the claim demands — it emits
`scraped_content` (with the augmented content) and no `scraping_warning`. -/
theorem short_content_emits_scraped_content :
    ¬ (hasWarningLine (relay shortContentInput).lines = true ∧
       hasScrapedLine (relay shortContentInput).lines = false) := by decide

/-- C8 (code bug): the claim says a request that supplies non-empty
pre-scraped content makes the relay use that content and skip the scrape
collaborator.  The POST handler packs `scraped_content` into the redirect to
the stream endpoint for exactly that purpose (`generate-line-content.ts`
lines 67-77), but the stream handler never reads it back: it always
constructs a `BlogScraper` and scrapes (lines 245-283).  Here the relay, on
an invocation whose request carries the non-empty pre-scraped article, still
calls the scraper and hands the freshly scraped article — not the supplied
one — to generation. -/
theorem relay_ignores_supplied_scraped_content :
    (relay suppliedContentInput).scrapeCalled = true ∧
    (relay suppliedContentInput).usedContent ≠ some preScrapedEx := by decide

theorem traceAux_mem_bounds : ∀ (evs : List CEvent) (s : SessionSt) (p : ℚ),
    p ∈ traceAux s evs → 0 ≤ p ∧ p ≤ 100 := by
  intro evs
  induction evs with
  | nil =>
    intro s p hp
    simp [traceAux] at hp
    subst hp; norm_num
  | cons e rest ih =>
    intro s p hp
    cases e with
    | error m =>
      simp [traceAux] at hp
      subst hp; norm_num
    | other t =>
      simp only [traceAux] at hp
      exact ih s p hp
    | outputTextDelta d =>
      simp only [traceAux, sessionStep, List.mem_cons] at hp
      rcases hp with rfl | hp
      · exact ⟨by positivity, le_trans (min_le_right _ _) (by norm_num)⟩
      · exact ih _ p hp
    | processStart =>
      simp only [traceAux, sessionStep, List.mem_cons] at hp
      rcases hp with rfl | hp
      · norm_num
      · exact ih _ p hp
    | scrapedContent t =>
      simp only [traceAux, sessionStep, List.mem_cons] at hp
      rcases hp with rfl | hp
      · norm_num
      · exact ih _ p hp
    | scrapingWarning w =>
      simp only [traceAux, sessionStep, List.mem_cons] at hp
      rcases hp with rfl | hp
      · norm_num
      · exact ih _ p hp
    | variationInfo n =>
      simp only [traceAux, sessionStep, List.mem_cons] at hp
      rcases hp with rfl | hp
      · norm_num
      · exact ih _ p hp
    | generationStarting =>
      simp only [traceAux, sessionStep, List.mem_cons] at hp
      rcases hp with rfl | hp
      · norm_num
      · exact ih _ p hp
    | responseCreated =>
      simp only [traceAux, sessionStep, List.mem_cons] at hp
      rcases hp with rfl | hp
      · norm_num
      · exact ih _ p hp
    | responseInProgress =>
      simp only [traceAux, sessionStep, List.mem_cons] at hp
      rcases hp with rfl | hp
      · norm_num
      · exact ih _ p hp
    | webSearchCall =>
      simp only [traceAux, sessionStep, List.mem_cons] at hp
      rcases hp with rfl | hp
      · norm_num
      · exact ih _ p hp
    | outputTextDone =>
      simp only [traceAux, sessionStep, List.mem_cons] at hp
      rcases hp with rfl | hp
      · norm_num
      · exact ih _ p hp
    | variationComplete =>
      simp only [traceAux, sessionStep, List.mem_cons] at hp
      rcases hp with rfl | hp
      · norm_num
      · exact ih _ p hp

/-- C3 (corrected): the claim says the progress values recorded for a session
are non-decreasing, no event application ever lowering the stored value.  The
client assigns progress absolutely — `updateVariationProgress` has no `max`
combinator and `handleVariationError` stores `0` — so the recorded sequence
does decrease: the generation session re-emits `variation_info` after the
relay already sent `generation_starting`, storing `30` over `35` (see the
counterexample), and any error event stores `0`.  Amended: every value the
reducer stores lies between 0 and 100 inclusive; the sequence is not
necessarily monotone. -/
theorem progress_values_bounded (evs : List CEvent) (p : ℚ)
    (hp : p ∈ progressTrace evs) : 0 ≤ p ∧ p ≤ 100 := by
  rcases List.mem_cons.mp hp with rfl | h
  · norm_num
  · exact traceAux_mem_bounds evs ⟨5, ""⟩ p h

/-- C3 witness: the amended theorem instantiated at the empty event list and
the initial recorded value 5. -/
theorem progress_values_bounded_witness : (0 : ℚ) ≤ 5 ∧ (5 : ℚ) ≤ 100 :=
  progress_values_bounded [] 5 (by decide)

/-- C3 counterexample: the event sequence `generation_starting` then
`variation_info` — exactly what the relay followed by the generation session
produces on every successful run — records the progress values
`[5, 35, 30, 100]`, which is not non-decreasing. -/
theorem progress_not_monotone_cex :
    ¬ List.Chain' (· ≤ ·)
      (progressTrace [CEvent.generationStarting, CEvent.variationInfo 0]) := by
  have h : progressTrace [CEvent.generationStarting, CEvent.variationInfo 0] =
      [5, 35, 30, 100] := by
    simp [progressTrace, traceAux, sessionStep]
  rw [h]
  simp [List.chain'_cons, List.chain'_singleton]
  norm_num

theorem processSessionContent_of_hasError (i : ℕ) (title : String) :
    ∀ (evs : List CEvent) (acc : String), hasError evs = true →
      processSessionContent i title acc evs = fallbackContent i title := by
  intro evs
  induction evs with
  | nil => intro acc h; simp [hasError] at h
  | cons e rest ih =>
    intro acc h
    cases e with
    | error m => simp [processSessionContent]
    | outputTextDelta d =>
      have hr : hasError rest = true := by simpa [hasError, isErrorEvent] using h
      simpa [processSessionContent] using ih (acc ++ d) hr
    | processStart =>
      have hr : hasError rest = true := by simpa [hasError, isErrorEvent] using h
      simpa [processSessionContent] using ih acc hr
    | scrapedContent t =>
      have hr : hasError rest = true := by simpa [hasError, isErrorEvent] using h
      simpa [processSessionContent] using ih acc hr
    | scrapingWarning w =>
      have hr : hasError rest = true := by simpa [hasError, isErrorEvent] using h
      simpa [processSessionContent] using ih acc hr
    | variationInfo n =>
      have hr : hasError rest = true := by simpa [hasError, isErrorEvent] using h
      simpa [processSessionContent] using ih acc hr
    | generationStarting =>
      have hr : hasError rest = true := by simpa [hasError, isErrorEvent] using h
      simpa [processSessionContent] using ih acc hr
    | responseCreated =>
      have hr : hasError rest = true := by simpa [hasError, isErrorEvent] using h
      simpa [processSessionContent] using ih acc hr
    | responseInProgress =>
      have hr : hasError rest = true := by simpa [hasError, isErrorEvent] using h
      simpa [processSessionContent] using ih acc hr
    | webSearchCall =>
      have hr : hasError rest = true := by simpa [hasError, isErrorEvent] using h
      simpa [processSessionContent] using ih acc hr
    | outputTextDone =>
      have hr : hasError rest = true := by simpa [hasError, isErrorEvent] using h
      simpa [processSessionContent] using ih acc hr
    | variationComplete =>
      have hr : hasError rest = true := by simpa [hasError, isErrorEvent] using h
      simpa [processSessionContent] using ih acc hr
    | other t =>
      have hr : hasError rest = true := by simpa [hasError, isErrorEvent] using h
      simpa [processSessionContent] using ih acc hr

/-- C2: every run that is not cancelled hands `onStreamComplete` exactly one
aggregated result of exactly 3 entries, whatever the three channels delivered
— never a shorter array and never no result.  Confirmed: `finishAllVariations`
maps a 3-slot array, and every session reaches a terminal event and advances
the chain. -/
theorem orchestrator_delivers_three_variations (scripts : Fin 3 → List CEvent)
    (title : String) (imgs : List String) (url : Option String) :
    ((runOrch scripts title imgs url .noCancel).delivered).map List.length = some 3 ∧
    (runOrch scripts title imgs url .noCancel).cancelSignals = 0 := by
  simp [runOrch, runFrom, finishAll]

/-- C4 (code bug): the claim — and the spec scenario `content matching
/バリエーション [1-3] の生成に失敗しました.*Example Post/` — says the delivered
`content[i]` is the fallback string when session `i`'s backend fails.
`handleVariationError` plainly intends that: it synthesizes the fallback
naming the title and `i + 1` and writes it into `streamedContents[i]`
(`ContentStreamingDisplay.tsx` lines 240-246).  But the write copies the
stale launch-render snapshot, later sessions' writes (also snapshot-based)
wipe slot `i` from the state, and `finishAllVariations` aggregates the
launch snapshot itself (line 275), so the caller receives `content[i] = ""`.
Evaluated at the failing input (every backend connection fails, title
`Example Post`, session 1): the later sessions still run and a 3-entry
result is delivered, session 1's write value is exactly the non-empty
fallback string, yet the delivered entry 1 has empty content. -/
theorem error_session_fallback_not_delivered :
    ((runOrch errScripts "Example Post" [] none .noCancel).delivered).map List.length =
      some 3 ∧
    ((runOrch errScripts "Example Post" [] none .noCancel).delivered.bind
        fun l => (l[((1 : Fin 3) : ℕ)]?).map GeneratedContent.content) = some "" ∧
    processSessionContent ((1 : Fin 3) : ℕ) "Example Post" "" (errScripts 1) =
      fallbackContent 1 "Example Post" ∧
    fallbackContent 1 "Example Post" ≠ "" := by decide

/-- C6 (corrected): the claim says cancelling mid-stream closes the open
channel, surfaces exactly one cancellation signal, and the caller is never
delivered an aggregated result.  `handleCancelStream` closes every
`EventSource` and calls `onStreamError` once, but it does not clear a pending
inter-session `setTimeout`; a cancel that lands in that settle window lets
the timer fire and the remaining sessions run, so `onStreamComplete` is still
invoked with a full 3-element result (see the counterexample).  Amended: a
cancel that arrives while a session's channel is open (any index, any number
of delivered events) yields exactly one cancellation signal and no aggregated
result. -/
theorem cancel_during_open_session_no_result (scripts : Fin 3 → List CEvent)
    (title : String) (imgs : List String) (url : Option String) (i : Fin 3) (k : ℕ)
    (_hopen : channelOpenAt (scripts i) k = true) :
    (runOrch scripts title imgs url (.duringSession i k)).delivered = none ∧
    (runOrch scripts title imgs url (.duringSession i k)).cancelSignals = 1 := by
  fin_cases i <;> simp [runOrch, runFrom]

/-- C6 witness: the amended theorem instantiated at concrete scripts, with the
cancel arriving while session 1's channel is open after one delivered event. -/
theorem cancel_during_open_session_witness :
    (runOrch openScripts "T" [] none (.duringSession 1 1)).delivered = none ∧
    (runOrch openScripts "T" [] none (.duringSession 1 1)).cancelSignals = 1 :=
  cancel_during_open_session_no_result openScripts "T" [] none 1 1 (by decide)

/-- C6 counterexample: a cancel that arrives during the settle delay after
session 0's channel closed (the run still in progress) produces the
cancellation signal, yet the remaining sessions run and a full 3-element
aggregated result is still delivered — contradicting the claim that the
caller never receives a 3-element result after a cancel. -/
theorem cancel_during_settle_still_delivers :
    ((runOrch (fun _ => []) "T" [] none (.duringSettle 0)).delivered).map List.length =
      some 3 ∧
    (runOrch (fun _ => []) "T" [] none (.duringSettle 0)).cancelSignals = 1 := by decide
